import Mathlib

/-!
Shallow embedding of the xc test runner (brownben/xc) for specification
verification.  The embedded code is `src/run.rs` (test execution state
machine and outcome classification), `src/main.rs` (scheduler / summary /
exit code), `src/coverage.rs` (the `Lines` merge), and
`src/python/objects.rs` (the tuple index helpers).

The Python runtime is modelled first-order: a Python object is described by
the observations `run.rs` makes of it (attribute lookup, `pytestmark`
contents, the result of calling it).  Machine `Duration`s are modelled as
`Nat` tick counts; `process::exit(code)` is modelled as `Except.error code`;
the undefined behaviour of `PyTuple::get_item_unchecked` on an empty tuple
and the panics of `.unwrap()` are made explicit with a `PyAbort` error
channel, so every embedded function is total.
-/

namespace Xc

/-- An error which occurred whilst executing Python code (`run.rs::Error`).
The `traceback` field of the source struct is irrelevant to every claim and
is modelled as an optional opaque payload carried by `stdout`/`stderr` style
fields. -/
structure Error where
  kind : String
  message : String
  stdout : Option String
  stderr : Option String
deriving Repr, DecidableEq

/-- `Error::is_assertion_error`: the exception class name equals
"AssertionError". -/
def Error.is_assertion_error (e : Error) : Bool :=
  e.kind == "AssertionError"

/-- `Error::is_skip_exception`: the exception class name starts with
"Skip". -/
def Error.is_skip_exception (e : Error) : Bool :=
  e.kind.startsWith "Skip"

/-- `run.rs::OutcomeKind`, the classification of one completed test. -/
inductive OutcomeKind where
  | pass (time : Nat)
  | skip (reason : String)
  | fail (error : Error) (time : Nat)
  | error (error : Error) (time : Nat)
  | moduleError (error : Error)
  | expectedFailure (time : Nat)
  | testNotFound
deriving Repr, DecidableEq

/-- `TestOutcome::is_fail`: everything which is not `Pass` or `Skip` counts
as failing. -/
def OutcomeKind.is_fail : OutcomeKind → Bool
  | .pass _ => false
  | .skip _ => false
  | _ => true

/-- An attribute value / tuple element / dict value as observed by
`run.rs`: its truthiness (`PyObject::is_truthy`), its string rendering
(`to_string`), and — when the value is callable, e.g. a `setUp` or
`tearDown` hook — the result of calling it with no arguments. -/
structure PyVal where
  truthy : Bool
  str : String
  callResult : Except Error Unit
deriving Repr

/-- One entry of a `pytestmark` list, described by the attribute reads
`run.rs` performs on it: `name` (None when the attribute access raises),
`args` (the mark's positional-argument tuple), and `kwargs` (the mark's
keyword-argument dict, as an association list). -/
structure Mark where
  name : Option PyVal
  args : Option (List PyVal)
  kwargs : Option (List (String × PyVal))
deriving Repr

/-- A Python object as observed by the execution state machine: attribute
lookup (`None` = the attribute does not exist / access raises), the parsed
`pytestmark` list (`none` = no such attribute), and the result of calling
the object with no arguments (`PyObject::call`). -/
structure PyObj where
  attrs : String → Option PyVal
  pytestmark : Option (List Mark)
  callResult : Except Error Unit

/-- Explicit marker for executions the Rust source does not define or
aborts: `uncheckedIndex` models `PyTuple::get_item_unchecked` past the end
of the tuple (undefined behaviour), `unwrapPanic` models a panicking
`.unwrap()`. -/
inductive PyAbort where
  | uncheckedIndex
  | unwrapPanic
deriving Repr, DecidableEq

/-- `PyTuple::get_item_unchecked` (objects.rs): in the embedding tuples are
lists and the unchecked read is the optional index, whose `none` branch is
the undefined-behaviour case. -/
def PyTuple.get_item_unchecked (tuple : List PyVal) (index : Nat) : Option PyVal :=
  tuple[index]?

/-- `PyDict::get_item` (objects.rs): lookup of a string key in a dict. -/
def PyDict.get_item (dict : List (String × PyVal)) (key : String) : Option PyVal :=
  (dict.find? (fun entry => entry.1 == key)).map Prod.snd

/-- `run.rs::has_truthy_attr`: the attribute exists and its value is
truthy. -/
def has_truthy_attr (object : PyObj) (attrName : String) : Bool :=
  match object.attrs attrName with
  | none => false
  | some value => value.truthy

/-- The reason attached to a matched skip mark: the `"reason"` keyword
argument rendered to a string, defaulting to the empty string (body of the
`should_skip` branch of `has_skip_marker`). -/
def mark_skip_reason (mark : Mark) : String :=
  match mark.kwargs with
  | some kwargs => ((PyDict.get_item kwargs "reason").map PyVal.str).getD ""
  | none => ""

/-- The `for mark in pytest_marks` loop of `run.rs::has_skip_marker`:
a mark named "skip" matches unconditionally; a mark named "skipIf" matches
when element 0 of its `args` tuple (read through the unchecked index) is
truthy; a failed `name` or `args` attribute read makes the whole scan
return `None` (the `.ok()?` operator). -/
def skip_mark_loop : List Mark → Except PyAbort (Option String)
  | [] => .ok none
  | mark :: rest =>
    match mark.name with
    | none => .ok none
    | some markName =>
      match markName.str with
      | "skip" => .ok (some (mark_skip_reason mark))
      | "skipIf" =>
        match mark.args with
        | none => .ok none
        | some args =>
          match PyTuple.get_item_unchecked args 0 with
          | none => .error .uncheckedIndex
          | some item =>
            if item.truthy then .ok (some (mark_skip_reason mark))
            else skip_mark_loop rest
      | _ => skip_mark_loop rest

/-- `run.rs::has_skip_annotation` (renamed here): a truthy `__unittest_skip__` attribute
short-circuits with the reason read from `__unittest_skip_why__`
(defaulting to empty); only otherwise is the `pytestmark` list scanned. -/
def has_skip_marker (object : PyObj) : Except PyAbort (Option String) :=
  if has_truthy_attr object "__unittest_skip__" then
    .ok (some (((object.attrs "__unittest_skip_why__").map PyVal.str).getD ""))
  else
    match object.pytestmark with
    | none => .ok none
    | some marks => skip_mark_loop marks

/-- The `for mark in pytest_marks` loop of `run.rs::is_expecting_failure`:
the first mark named "xfail" decides the answer by the truthiness of
element 0 of its `args` tuple; the `name`/`args` reads here use `.unwrap()`
and so panic on failure. -/
def xfail_mark_loop : List Mark → Except PyAbort Bool
  | [] => .ok false
  | mark :: rest =>
    match mark.name with
    | none => .error .unwrapPanic
    | some markName =>
      if markName.str == "xfail" then
        match mark.args with
        | none => .error .unwrapPanic
        | some args =>
          match PyTuple.get_item_unchecked args 0 with
          | none => .error .uncheckedIndex
          | some item => .ok item.truthy
      else xfail_mark_loop rest

/-- `run.rs::is_expecting_failure`: a truthy
`__unittest_expecting_failure__` attribute, or otherwise the first "xfail"
entry of the `pytestmark` list with a truthy first argument. -/
def is_expecting_failure (object : PyObj) : Except PyAbort Bool :=
  if has_truthy_attr object "__unittest_expecting_failure__" then
    .ok true
  else
    match object.pytestmark with
    | none => .ok false
    | some marks => xfail_mark_loop marks

/-- `run.rs::call_optional_method`: if the object has the named attribute,
call it (propagating a raised exception); otherwise do nothing. -/
def call_optional_method (object : PyObj) (method : String) : Except Error Unit :=
  match object.attrs method with
  | some methodVal => do
    let _call_result ← methodVal.callResult
    .ok ()
  | none => .ok ()

/-- The final `match test_result` block shared verbatim by
`run.rs::test_function` and `run.rs::test_method`. -/
def classify_result (result : Except Error Unit) (expectingFailure : Bool) (time : Nat) : OutcomeKind :=
  match result with
  | .ok _ =>
    if expectingFailure then .expectedFailure time else .pass time
  | .error e =>
    if expectingFailure then .pass time
    else if e.is_skip_exception then .skip e.message
    else if e.is_assertion_error then .fail e time
    else .error e time

/-- Observable steps of the execution state machine, recorded in program
order so ordering / never-invoked properties can be stated. -/
inductive Event where
  | executeFileStep
  | classLookup
  | classInstantiate
  | skipCheckInstance
  | methodLookup
  | skipCheckMethod
  | functionLookup
  | skipCheckFunction
  | expectingFailureCheck
  | setUpInvoke
  | bodyInvoke
  | tearDownInvoke
deriving Repr, DecidableEq

/-- Everything the Python runtime does for one function-style test, in the
order `run.rs::test_function` observes it: the module execution result, the
function lookup result, and the elapsed tick count. -/
structure FunctionEnv where
  executeFile : Except Error Unit
  getFunction : Option PyObj
  elapsed : Nat

/-- `run.rs::test_function`, instrumented with the list of steps it
performs.  Early returns of the source are the early-matched branches. -/
def test_function (env : FunctionEnv) : Except PyAbort (OutcomeKind × List Event) :=
  let trace0 : List Event := [.executeFileStep]
  match env.executeFile with
  | .error e => .ok (.moduleError e, trace0)
  | .ok _ =>
  let trace1 := trace0 ++ [.functionLookup]
  match env.getFunction with
  | none => .ok (.testNotFound, trace1)
  | some function =>
  let trace2 := trace1 ++ [.skipCheckFunction]
  match has_skip_marker function with
  | .error abort => .error abort
  | .ok (some reason) => .ok (.skip reason, trace2)
  | .ok none =>
  let trace3 := trace2 ++ [.expectingFailureCheck]
  match is_expecting_failure function with
  | .error abort => .error abort
  | .ok expectingFailure =>
  let trace4 := trace3 ++ [.bodyInvoke]
  .ok (classify_result function.callResult expectingFailure env.elapsed, trace4)

/-- Everything the Python runtime does for one method-style test, in the
order `run.rs::test_method` observes it.  `classFound` is the success of
`module.get_attr(suite_name)`; `classCallResult` the instantiation
`class.call()`; `classInstance` the resulting instance (consulted for skip
annotations and for the `setUp`/`tearDown` attributes); `getMethod` the
lookup `class_instance.get_attr(test_name)`. -/
structure MethodEnv where
  executeFile : Except Error Unit
  classFound : Bool
  classCallResult : Except Error Unit
  classInstance : PyObj
  getMethod : Option PyObj
  elapsed : Nat

/-- `run.rs::test_method`, instrumented with the list of steps it
performs. -/
def test_method (env : MethodEnv) : Except PyAbort (OutcomeKind × List Event) :=
  let trace0 : List Event := [.executeFileStep]
  match env.executeFile with
  | .error e => .ok (.moduleError e, trace0)
  | .ok _ =>
  let trace1 := trace0 ++ [.classLookup]
  if !env.classFound then .ok (.testNotFound, trace1) else
  let trace2 := trace1 ++ [.classInstantiate]
  match env.classCallResult with
  | .error e => .ok (.moduleError e, trace2)
  | .ok _ =>
  let trace3 := trace2 ++ [.skipCheckInstance]
  match has_skip_marker env.classInstance with
  | .error abort => .error abort
  | .ok (some reason) => .ok (.skip reason, trace3)
  | .ok none =>
  let trace4 := trace3 ++ [.methodLookup]
  match env.getMethod with
  | none => .ok (.testNotFound, trace4)
  | some method =>
  let trace5 := trace4 ++ [.skipCheckMethod]
  match has_skip_marker method with
  | .error abort => .error abort
  | .ok (some reason) => .ok (.skip reason, trace5)
  | .ok none =>
  let trace6 := trace5 ++ [.expectingFailureCheck]
  match is_expecting_failure method with
  | .error abort => .error abort
  | .ok expectingFailure =>
  let trace7 := trace6 ++
    (if (env.classInstance.attrs "setUp").isSome then [Event.setUpInvoke] else [])
  match call_optional_method env.classInstance "setUp" with
  | .error e => .ok (.moduleError e, trace7)
  | .ok _ =>
  let testResult := method.callResult
  let trace8 := trace7 ++ [.bodyInvoke]
  let trace9 := trace8 ++
    (if (env.classInstance.attrs "tearDown").isSome then [Event.tearDownInvoke] else [])
  match call_optional_method env.classInstance "tearDown" with
  | .error e => .ok (.moduleError e, trace9)
  | .ok _ =>
  .ok (classify_result testResult expectingFailure env.elapsed, trace9)

/-- Projection of the instrumented state machine onto its outcome. -/
def test_function_outcome (env : FunctionEnv) : Except PyAbort OutcomeKind :=
  (test_function env).map Prod.fst

/-- Projection of the instrumented state machine onto its outcome. -/
def test_method_outcome (env : MethodEnv) : Except PyAbort OutcomeKind :=
  (test_method env).map Prod.fst

/-- The counts of `main.rs::TestSummary` (its `duration`, outcome list and
coverage fields are modelled separately where needed). -/
structure TestSummary where
  passed : Nat
  skipped : Nat
  failed : Nat
deriving Repr, DecidableEq

/-- One step of the counting loop of `TestSummary::from_par_iter`:
`Pass` increments `passed`, `Skip` increments `skipped`, every other
outcome increments `failed`. -/
def count_outcome (acc : TestSummary) (outcome : OutcomeKind) : TestSummary :=
  match outcome with
  | .pass _ => { acc with passed := acc.passed + 1 }
  | .skip _ => { acc with skipped := acc.skipped + 1 }
  | _ => { acc with failed := acc.failed + 1 }

/-- `main.rs::TestSummary::from_par_iter`, counting the collected outcomes
(duration and coverage unzip omitted). -/
def TestSummary.from_par_iter (outcomes : List OutcomeKind) : TestSummary :=
  outcomes.foldl count_outcome { passed := 0, skipped := 0, failed := 0 }

/-- The `.inspect(...)` step of the result pipeline in `main.rs::main`,
modelled sequentially over the stream of completed outcomes (completion
order).  When fail-fast is active (`!args.no_fail_fast`) and an outcome is
failing, the source calls `process::exit(1)`, modelled as `Except.error`
with the exit code: no summary is built and every other result is lost. -/
def run_tests (noFailFast : Bool) : List OutcomeKind → Except Nat (List OutcomeKind)
  | [] => .ok []
  | outcome :: rest =>
    if !noFailFast && outcome.is_fail then .error 1
    else (run_tests noFailFast rest).map (outcome :: ·)

/-- The exit code of `main.rs::main`: either the code of a `process::exit`
raised while inspecting results, or `0` exactly when the summary has no
failures and at least one pass (`ExitCode::SUCCESS` = 0,
`ExitCode::FAILURE` = 1). -/
def main_exit_code (noFailFast : Bool) (outcomes : List OutcomeKind) : Nat :=
  match run_tests noFailFast outcomes with
  | .error code => code
  | .ok results =>
    let summary := TestSummary.from_par_iter results
    if summary.failed == 0 && summary.passed > 0 then 0 else 1

/-- `coverage.rs::Lines`: a `HashMap<String, BTreeSet<i32>>` from file path
to executed/executable line numbers, modelled as a total map where a
missing file is the empty set (matching `entry(file).or_default()`). -/
def Lines : Type := String → Finset Int

/-- The per-file merge step of `ParallelExtend for Lines`:
`self.0.entry(file).or_default().extend(lines)` for every file is the
pointwise set union of the two maps. -/
def Lines.merge (a b : Lines) : Lines :=
  fun file => a file ∪ b file

/-- `coverage.rs::ParallelExtend for Lines::par_extend`: drop the `None`
worker results and union-in every remaining `Lines` map. -/
def Lines.par_extend (self : Lines) (iter : List (Option Lines)) : Lines :=
  (iter.filterMap id).foldl Lines.merge self

/-- The outcomes counted into `passed` by `TestSummary::from_par_iter`. -/
def OutcomeKind.is_pass : OutcomeKind → Bool
  | .pass _ => true
  | _ => false

/-- The outcomes counted into `skipped` by `TestSummary::from_par_iter`. -/
def OutcomeKind.is_skip : OutcomeKind → Bool
  | .skip _ => true
  | _ => false

/-- A `pytestmark` entry the skip scan passes over: its name reads
successfully and is neither "skip" nor a "skipIf" whose (present, nonempty)
args tuple has a truthy first element.  (A "skipIf" without readable args
makes the scan return early, and one with an empty args tuple hits the
unchecked index, so neither is passed over.) -/
def mark_not_skip (m : Mark) : Prop :=
  ∃ v, m.name = some v ∧ v.str ≠ "skip" ∧
    (v.str = "skipIf" →
      ∃ args a0, m.args = some args ∧ PyTuple.get_item_unchecked args 0 = some a0 ∧
        a0.truthy = false)

/-- Sample assertion-failure error used by concrete witnesses. -/
def assertionError : Error :=
  { kind := "AssertionError", message := "1 != 2", stdout := none, stderr := none }

/-- Sample skip-exception error used by concrete witnesses. -/
def skipTestError : Error :=
  { kind := "SkipTest", message := "not today", stdout := none, stderr := none }

/-- Sample generic error used by concrete witnesses. -/
def valueError : Error :=
  { kind := "ValueError", message := "bad value", stdout := none, stderr := none }

/-- Sample truthy attribute value. -/
def truthyVal : PyVal :=
  { truthy := true, str := "True", callResult := .ok () }

/-- A test function with no attributes or marks whose body returns. -/
def plain_function : PyObj :=
  { attrs := fun _ => none, pytestmark := none, callResult := .ok () }

/-- A test function carrying a truthy native `__unittest_skip__` marker (no
`__unittest_skip_why__`). -/
def skip_marked_function : PyObj :=
  { attrs := fun a => if a = "__unittest_skip__" then some truthyVal else none,
    pytestmark := none,
    callResult := .ok () }

/-- A test function carrying a truthy native
`__unittest_expecting_failure__` marker whose body raises. -/
def xfail_marked_function : PyObj :=
  { attrs := fun a => if a = "__unittest_expecting_failure__" then some truthyVal else none,
    pytestmark := none,
    callResult := .error assertionError }

/-- A class instance whose `setUp` hook raises. -/
def setup_raises_instance : PyObj :=
  { attrs := fun a =>
      if a = "setUp" then some { truthy := true, str := "setUp", callResult := .error valueError }
      else none,
    pytestmark := none,
    callResult := .ok () }

/-- A class instance whose `setUp` hook succeeds and whose `tearDown` hook
raises. -/
def teardown_raises_instance : PyObj :=
  { attrs := fun a =>
      if a = "setUp" then some { truthy := true, str := "setUp", callResult := .ok () }
      else if a = "tearDown" then
        some { truthy := true, str := "tearDown", callResult := .error valueError }
      else none,
    pytestmark := none,
    callResult := .ok () }

/-- Method-test scenario: module loads, class resolves and instantiates,
no skip markers, `setUp` raises. -/
def setup_raises_env : MethodEnv :=
  { executeFile := .ok (), classFound := true, classCallResult := .ok (),
    classInstance := setup_raises_instance, getMethod := some plain_function, elapsed := 3 }

/-- Method-test scenario: module loads, class resolves and instantiates,
no skip markers, body passes, `tearDown` raises. -/
def teardown_raises_env : MethodEnv :=
  { executeFile := .ok (), classFound := true, classCallResult := .ok (),
    classInstance := teardown_raises_instance, getMethod := some plain_function, elapsed := 3 }

/-- Method-test scenario: the class instance carries a truthy native skip
marker. -/
def skip_instance_env : MethodEnv :=
  { executeFile := .ok (), classFound := true, classCallResult := .ok (),
    classInstance := skip_marked_function, getMethod := some plain_function, elapsed := 3 }

/-- Method-test scenario: the instance is unmarked but the method carries a
truthy native skip marker. -/
def skip_method_env : MethodEnv :=
  { executeFile := .ok (), classFound := true, classCallResult := .ok (),
    classInstance := plain_function, getMethod := some skip_marked_function, elapsed := 3 }

/-- Function-test scenario: the function carries a truthy native skip
marker. -/
def skip_function_env : FunctionEnv :=
  { executeFile := .ok (), getFunction := some skip_marked_function, elapsed := 3 }

/-- The outcome stream used to refute the claimed fail-fast tallying: a
pass already produced, then a failing outcome, then a further pass. -/
def fail_fast_stream : List OutcomeKind :=
  [OutcomeKind.pass 1, OutcomeKind.fail assertionError 2, OutcomeKind.pass 3]

/-- Sample coverage map used by concrete witnesses. -/
def sample_lines_a : Lines :=
  fun file => if file = "a.py" then {1, 2} else ∅

/-- Sample coverage map used by concrete witnesses. -/
def sample_lines_b : Lines :=
  fun file => if file = "a.py" then {2, 3} else if file = "b.py" then {10} else ∅

/-- A bare "skipIf" pytestmark entry whose args tuple is empty — the shape
which violates the unchecked-index precondition. -/
def bare_skipIf_mark : Mark :=
  { name := some { truthy := true, str := "skipIf", callResult := .ok () },
    args := some [], kwargs := none }

/-- A pytestmark entry the skip scan does not match (name "slow"). -/
def slow_mark : Mark :=
  { name := some { truthy := true, str := "slow", callResult := .ok () },
    args := some [], kwargs := none }

/-- A pytestmark "skip" entry with a "reason" keyword argument. -/
def skip_mark_with_reason : Mark :=
  { name := some { truthy := true, str := "skip", callResult := .ok () },
    args := some [],
    kwargs := some [("reason", { truthy := true, str := "later", callResult := .ok () })] }

/-- A test function with no native skip attribute whose pytestmark list
holds a non-skip mark followed by a "skip" mark. -/
def pytest_skip_object : PyObj :=
  { attrs := fun _ => none,
    pytestmark := some [slow_mark, skip_mark_with_reason],
    callResult := .ok () }

/-- C1: for a function-style test whose module loads, whose function
resolves, and which carries no skip or expected-failure marker, a normal
return is classified `Pass` with the elapsed time; a raised exception whose
class name starts with "Skip" is classified `Skip` carrying the exception
message; a raised exception whose class name equals "AssertionError" is
classified `Fail`; any other raised exception is classified `Error`; and
the skip-name test is applied first (a Skip-prefixed class name yields
`Skip` with no side condition about the assertion-name test). -/
theorem C1_function_classification (env : FunctionEnv) (f : PyObj)
    (hmod : env.executeFile = .ok ())
    (hfun : env.getFunction = some f)
    (hskip : has_skip_marker f = .ok none)
    (hxfail : is_expecting_failure f = .ok false) :
    test_function_outcome env =
      .ok (match f.callResult with
        | .ok _ => .pass env.elapsed
        | .error e =>
          if e.kind.startsWith "Skip" then .skip e.message
          else if e.kind == "AssertionError" then .fail e env.elapsed
          else .error e env.elapsed) := by
  cases hc : f.callResult with
  | ok u =>
    simp [test_function_outcome, test_function, hmod, hfun, hskip, hxfail,
      classify_result, hc, Except.map]
  | error e =>
    simp [test_function_outcome, test_function, hmod, hfun, hskip, hxfail,
      classify_result, hc, Error.is_skip_exception, Error.is_assertion_error, Except.map]

/-- Witness for C1 at a concrete passing test. -/
theorem C1_function_classification_witness :
    test_function_outcome
      { executeFile := .ok (), getFunction := some plain_function, elapsed := 7 } =
      .ok (.pass 7) :=
  C1_function_classification _ plain_function rfl rfl rfl rfl

/-- C2: for a test marked as expecting failure — a truthy
`__unittest_expecting_failure__` attribute, or otherwise a `pytestmark`
entry named "xfail" whose first argument is truthy — the classification is
inverted: a normal return yields `ExpectedFailure` with the elapsed time,
and any raised exception, whatever its class (skip and assertion exceptions
included), yields `Pass` without inspecting the exception. -/
theorem C2_expected_failure_inversion (env : FunctionEnv) (f : PyObj)
    (hmod : env.executeFile = .ok ())
    (hfun : env.getFunction = some f)
    (hskip : has_skip_marker f = .ok none)
    (hxfail : is_expecting_failure f = .ok true) :
    test_function_outcome env =
      .ok (match f.callResult with
        | .ok _ => .expectedFailure env.elapsed
        | .error _ => .pass env.elapsed)
    ∧ (∀ obj : PyObj, has_truthy_attr obj "__unittest_expecting_failure__" = true →
        is_expecting_failure obj = .ok true)
    ∧ (∀ (obj : PyObj) (v a0 : PyVal) (args : List PyVal)
        (kw : Option (List (String × PyVal))) (rest : List Mark),
        has_truthy_attr obj "__unittest_expecting_failure__" = false →
        obj.pytestmark = some ({ name := some v, args := some args, kwargs := kw } :: rest) →
        v.str = "xfail" → PyTuple.get_item_unchecked args 0 = some a0 →
        is_expecting_failure obj = .ok a0.truthy) := by
  refine ⟨?_, ?_, ?_⟩
  · cases hc : f.callResult with
    | ok u =>
      simp [test_function_outcome, test_function, hmod, hfun, hskip, hxfail,
        classify_result, hc, Except.map]
    | error e =>
      simp [test_function_outcome, test_function, hmod, hfun, hskip, hxfail,
        classify_result, hc, Except.map]
  · intro obj h
    simp [is_expecting_failure, h]
  · intro obj v a0 args kw rest hattr hmarks hname hget
    simp [is_expecting_failure, hattr, hmarks, xfail_mark_loop, hname, hget]

/-- Witness for C2 at a concrete expecting-failure test whose body raises
an assertion error: the run passes. -/
theorem C2_expected_failure_inversion_witness :
    test_function_outcome
      { executeFile := .ok (), getFunction := some xfail_marked_function, elapsed := 4 } =
      .ok (.pass 4) :=
  (C2_expected_failure_inversion _ xfail_marked_function rfl rfl rfl rfl).1

/-- C5: for a method-style test (module loaded, class instantiated, no
skip markers), a raised exception in the optional `setUp` hook yields
`ModuleError` without the test body ever being invoked, and a raised
exception in the optional `tearDown` hook yields `ModuleError` overriding
whatever outcome the test body produced (the conclusion holds for every
body result and every expected-failure evaluation). -/
theorem C5_setup_teardown_override (env : MethodEnv) (m : PyObj) (e : Error) (ef : Bool)
    (hmod : env.executeFile = .ok ())
    (hclass : env.classFound = true)
    (hinst : env.classCallResult = .ok ())
    (hskipI : has_skip_marker env.classInstance = .ok none)
    (hm : env.getMethod = some m)
    (hskipM : has_skip_marker m = .ok none)
    (hef : is_expecting_failure m = .ok ef) :
    (call_optional_method env.classInstance "setUp" = .error e →
      test_method env = .ok (.moduleError e,
        [.executeFileStep, .classLookup, .classInstantiate, .skipCheckInstance,
         .methodLookup, .skipCheckMethod, .expectingFailureCheck, .setUpInvoke])
      ∧ Event.bodyInvoke ∉
        [Event.executeFileStep, Event.classLookup, Event.classInstantiate,
         Event.skipCheckInstance, Event.methodLookup, Event.skipCheckMethod,
         Event.expectingFailureCheck, Event.setUpInvoke])
    ∧ (call_optional_method env.classInstance "setUp" = .ok () →
        call_optional_method env.classInstance "tearDown" = .error e →
        test_method_outcome env = .ok (.moduleError e)) := by
  constructor
  · intro hsu
    have hsome : (env.classInstance.attrs "setUp").isSome = true := by
      cases hat : env.classInstance.attrs "setUp" with
      | none => simp [call_optional_method, hat] at hsu
      | some v => rfl
    refine ⟨?_, by decide⟩
    simp [test_method, hmod, hclass, hinst, hskipI, hm, hskipM, hef, hsu, hsome]
  · intro hsu htd
    simp [test_method_outcome, test_method, hmod, hclass, hinst, hskipI, hm,
      hskipM, hef, hsu, htd, Except.map]

/-- Witness for C5: a concrete raising `setUp` gives `ModuleError` with no
body invocation, and a concrete raising `tearDown` after a passing body
still gives `ModuleError`. -/
theorem C5_setup_teardown_override_witness :
    (test_method setup_raises_env = .ok (.moduleError valueError,
        [.executeFileStep, .classLookup, .classInstantiate, .skipCheckInstance,
         .methodLookup, .skipCheckMethod, .expectingFailureCheck, .setUpInvoke]))
    ∧ test_method_outcome teardown_raises_env = .ok (.moduleError valueError) :=
  ⟨((C5_setup_teardown_override setup_raises_env plain_function valueError false
      rfl rfl rfl rfl rfl rfl rfl).1 rfl).1,
   (C5_setup_teardown_override teardown_raises_env plain_function valueError false
      rfl rfl rfl rfl rfl rfl rfl).2 rfl rfl⟩

/-- C6: a skip marker (on the class instance or the method of a method
test, on the function otherwise) makes the run return `Skip` with the
marker's reason before the expected-failure marker is evaluated and before
`setUp`, the test body, or `tearDown` are invoked: the recorded step trace
ends at the skip check and contains none of those steps. -/
theorem C6_skip_priority
    (envA envB : MethodEnv) (fenv : FunctionEnv) (m f : PyObj) (rA rB rF : String)
    (hAmod : envA.executeFile = .ok ()) (hAclass : envA.classFound = true)
    (hAinst : envA.classCallResult = .ok ())
    (hAskip : has_skip_marker envA.classInstance = .ok (some rA))
    (hBmod : envB.executeFile = .ok ()) (hBclass : envB.classFound = true)
    (hBinst : envB.classCallResult = .ok ())
    (hBskipI : has_skip_marker envB.classInstance = .ok none)
    (hBm : envB.getMethod = some m)
    (hBskipM : has_skip_marker m = .ok (some rB))
    (hFmod : fenv.executeFile = .ok ()) (hFfun : fenv.getFunction = some f)
    (hFskip : has_skip_marker f = .ok (some rF)) :
    (test_method envA = .ok (.skip rA,
        [.executeFileStep, .classLookup, .classInstantiate, .skipCheckInstance])
      ∧ ∀ ev ∈ [Event.executeFileStep, Event.classLookup, Event.classInstantiate,
          Event.skipCheckInstance],
          ev ≠ .expectingFailureCheck ∧ ev ≠ .setUpInvoke ∧ ev ≠ .bodyInvoke ∧
            ev ≠ .tearDownInvoke)
    ∧ (test_method envB = .ok (.skip rB,
        [.executeFileStep, .classLookup, .classInstantiate, .skipCheckInstance,
         .methodLookup, .skipCheckMethod])
      ∧ ∀ ev ∈ [Event.executeFileStep, Event.classLookup, Event.classInstantiate,
          Event.skipCheckInstance, Event.methodLookup, Event.skipCheckMethod],
          ev ≠ .expectingFailureCheck ∧ ev ≠ .setUpInvoke ∧ ev ≠ .bodyInvoke ∧
            ev ≠ .tearDownInvoke)
    ∧ (test_function fenv = .ok (.skip rF,
        [.executeFileStep, .functionLookup, .skipCheckFunction])
      ∧ ∀ ev ∈ [Event.executeFileStep, Event.functionLookup, Event.skipCheckFunction],
          ev ≠ .expectingFailureCheck ∧ ev ≠ .bodyInvoke) := by
  refine ⟨⟨?_, by decide⟩, ⟨?_, by decide⟩, ⟨?_, by decide⟩⟩
  · simp [test_method, hAmod, hAclass, hAinst, hAskip]
  · simp [test_method, hBmod, hBclass, hBinst, hBskipI, hBm, hBskipM]
  · simp [test_function, hFmod, hFfun, hFskip]

/-- Witness for C6 at concrete skip-marked instance, method, and
function. -/
theorem C6_skip_priority_witness :
    test_method skip_instance_env = .ok (.skip "",
      [.executeFileStep, .classLookup, .classInstantiate, .skipCheckInstance])
    ∧ test_method skip_method_env = .ok (.skip "",
      [.executeFileStep, .classLookup, .classInstantiate, .skipCheckInstance,
       .methodLookup, .skipCheckMethod])
    ∧ test_function skip_function_env = .ok (.skip "",
      [.executeFileStep, .functionLookup, .skipCheckFunction]) :=
  ⟨(C6_skip_priority skip_instance_env skip_method_env skip_function_env
      skip_marked_function skip_marked_function "" "" ""
      rfl rfl rfl rfl rfl rfl rfl rfl rfl rfl rfl rfl rfl).1.1,
   (C6_skip_priority skip_instance_env skip_method_env skip_function_env
      skip_marked_function skip_marked_function "" "" ""
      rfl rfl rfl rfl rfl rfl rfl rfl rfl rfl rfl rfl rfl).2.1.1,
   (C6_skip_priority skip_instance_env skip_method_env skip_function_env
      skip_marked_function skip_marked_function "" "" ""
      rfl rfl rfl rfl rfl rfl rfl rfl rfl rfl rfl rfl rfl).2.2.1⟩

/-- A mark the skip scan passes over leaves the scan's result unchanged. -/
theorem skip_mark_loop_pass_over (m : Mark) (rest : List Mark) (h : mark_not_skip m) :
    skip_mark_loop (m :: rest) = skip_mark_loop rest := by
  obtain ⟨v, hname, hns, hsi⟩ := h
  by_cases hskip : v.str = "skipIf"
  · obtain ⟨args, a0, hargs, ha0, htr⟩ := hsi hskip
    simp [skip_mark_loop, hname, hskip, hargs, ha0, htr]
  · simp only [skip_mark_loop, hname]

/-- A mark named "skip", or named "skipIf" with truthy first argument,
makes the skip scan return that mark's reason. -/
theorem skip_mark_loop_matched (m : Mark) (rest : List Mark) (v : PyVal)
    (hname : m.name = some v)
    (hmatch : v.str = "skip" ∨ (v.str = "skipIf" ∧ ∃ args a0, m.args = some args ∧
      PyTuple.get_item_unchecked args 0 = some a0 ∧ a0.truthy = true)) :
    skip_mark_loop (m :: rest) = .ok (some (mark_skip_reason m)) := by
  rcases hmatch with h | ⟨h, args, a0, hargs, ha0, htr⟩
  · simp [skip_mark_loop, hname, h]
  · simp [skip_mark_loop, hname, h, hargs, ha0, htr]

/-- The skip scan skips over a prefix of passed-over marks. -/
theorem skip_mark_loop_append (pre l : List Mark) (h : ∀ x ∈ pre, mark_not_skip x) :
    skip_mark_loop (pre ++ l) = skip_mark_loop l := by
  induction pre with
  | nil => rfl
  | cons x xs ih =>
    rw [List.cons_append, skip_mark_loop_pass_over x _ (h x (List.mem_cons_self x xs)),
      ih (fun y hy => h y (List.mem_cons_of_mem x hy))]

/-- C7: skip-annotation resolution checks the native `__unittest_skip__`
attribute first: when it is truthy the result is `Skip` with reason read
from `__unittest_skip_why__` (defaulting to the empty string) and the
`pytestmark` list is never consulted (replacing it does not change the
result); only when the native attribute is absent or falsy is the
`pytestmark` list scanned in order, and the first "skip" entry or "skipIf"
entry with truthy first argument produces the skip, with reason taken from
the mark's "reason" keyword argument, defaulting to empty. -/
theorem C7_skip_annotation_priority
    (obj obj2 : PyObj) (pre rest : List Mark) (m : Mark) (v : PyVal)
    (hnative : has_truthy_attr obj "__unittest_skip__" = true)
    (hnat2 : has_truthy_attr obj2 "__unittest_skip__" = false)
    (hmarks : obj2.pytestmark = some (pre ++ m :: rest))
    (hpre : ∀ x ∈ pre, mark_not_skip x)
    (hname : m.name = some v)
    (hmatch : v.str = "skip" ∨ (v.str = "skipIf" ∧ ∃ args a0, m.args = some args ∧
      PyTuple.get_item_unchecked args 0 = some a0 ∧ a0.truthy = true)) :
    has_skip_marker obj =
      .ok (some (((obj.attrs "__unittest_skip_why__").map PyVal.str).getD ""))
    ∧ (∀ pm : Option (List Mark),
        has_skip_marker { obj with pytestmark := pm } = has_skip_marker obj)
    ∧ has_skip_marker obj2 =
      .ok (some (match m.kwargs with
        | some kwargs => ((PyDict.get_item kwargs "reason").map PyVal.str).getD ""
        | none => "")) := by
  refine ⟨?_, ?_, ?_⟩
  · simp [has_skip_marker, hnative]
  · intro pm
    simp [has_skip_marker, has_truthy_attr] at hnative ⊢
    simp [hnative]
  · rw [has_skip_marker, hnat2]
    simp only [hmarks, skip_mark_loop_append pre _ hpre,
      skip_mark_loop_matched m rest v hname hmatch]
    rfl

/-- Witness for C7: a native skip marker without a why attribute skips
with empty reason whatever the pytestmark list says, and a pytestmark
"skip" entry behind a non-matching mark skips with its "reason" keyword
argument. -/
theorem C7_skip_annotation_priority_witness :
    has_skip_marker skip_marked_function = .ok (some "")
    ∧ has_skip_marker
        { skip_marked_function with pytestmark := some [skip_mark_with_reason] } =
        has_skip_marker skip_marked_function
    ∧ has_skip_marker pytest_skip_object = .ok (some "later") := by
  have h := C7_skip_annotation_priority skip_marked_function pytest_skip_object
    [slow_mark] [] skip_mark_with_reason
    { truthy := true, str := "skip", callResult := .ok () }
    rfl rfl rfl
    (by
      intro x hx
      rw [List.mem_singleton] at hx
      subst hx
      exact ⟨{ truthy := true, str := "slow", callResult := .ok () }, rfl,
        by decide, by intro hc; exact absurd hc (by decide)⟩)
    rfl (Or.inl rfl)
  exact ⟨h.1, h.2.1 (some [skip_mark_with_reason]), h.2.2⟩

/-- With fail-fast disabled every outcome is collected. -/
theorem run_tests_no_fail_fast (l : List OutcomeKind) : run_tests true l = .ok l := by
  induction l with
  | nil => rfl
  | cons x xs ih => simp [run_tests, ih, Except.map]

/-- When no outcome is failing, fail-fast never triggers and every outcome
is collected. -/
theorem run_tests_ok_of_no_fail (l : List OutcomeKind)
    (h : ∀ o ∈ l, o.is_fail = false) : run_tests false l = .ok l := by
  induction l with
  | nil => rfl
  | cons x xs ih =>
    simp [run_tests, h x (List.mem_cons_self x xs),
      ih (fun y hy => h y (List.mem_cons_of_mem x hy)), Except.map]

/-- With fail-fast active, a failing outcome anywhere in the stream makes
the run exit the process with code 1. -/
theorem run_tests_error_of_mem (l : List OutcomeKind) (o : OutcomeKind)
    (hmem : o ∈ l) (hf : o.is_fail = true) : run_tests false l = .error 1 := by
  induction l with
  | nil => cases hmem
  | cons x xs ih =>
    cases hx : x.is_fail with
    | true => simp [run_tests, hx]
    | false =>
      have hxmem : o ∈ xs := by
        rcases List.mem_cons.mp hmem with h | h
        · exact absurd (h ▸ hf) (by simp [hx])
        · exact h
      simp [run_tests, hx, ih hxmem, Except.map]

/-- The result pipeline either collects every outcome or exits with
code 1. -/
theorem run_tests_ok_or_error (nff : Bool) (l : List OutcomeKind) :
    run_tests nff l = .ok l ∨ run_tests nff l = .error 1 := by
  induction l with
  | nil => exact Or.inl rfl
  | cons x xs ih =>
    cases hc : (!nff && x.is_fail) with
    | true => exact Or.inr (by simp [run_tests, hc])
    | false =>
      rcases ih with h | h
      · exact Or.inl (by simp [run_tests, hc, h, Except.map])
      · exact Or.inr (by simp [run_tests, hc, h, Except.map])

/-- The counting loop of `TestSummary::from_par_iter`, with a general
accumulator. -/
theorem from_par_iter_foldl (acc : TestSummary) (l : List OutcomeKind) :
    l.foldl count_outcome acc =
      { passed := acc.passed + l.countP OutcomeKind.is_pass,
        skipped := acc.skipped + l.countP OutcomeKind.is_skip,
        failed := acc.failed + l.countP OutcomeKind.is_fail } := by
  induction l generalizing acc with
  | nil => simp
  | cons x xs ih =>
    rw [List.foldl_cons, ih]
    cases x <;>
      simp [count_outcome, OutcomeKind.is_pass, OutcomeKind.is_skip,
        OutcomeKind.is_fail, List.countP_cons, TestSummary.mk.injEq] <;>
      omega

/-- The summary's `failed` field counts exactly the outcomes `is_fail`
accepts. -/
theorem summary_failed_count (l : List OutcomeKind) :
    (TestSummary.from_par_iter l).failed = l.countP OutcomeKind.is_fail := by
  simp [TestSummary.from_par_iter, from_par_iter_foldl]

/-- The summary's `passed` field counts exactly the `Pass` outcomes. -/
theorem summary_passed_count (l : List OutcomeKind) :
    (TestSummary.from_par_iter l).passed = l.countP OutcomeKind.is_pass := by
  simp [TestSummary.from_par_iter, from_par_iter_foldl]

/-- C3 counterexample: with fail-fast enabled (the default), as soon as the
failing outcome of the stream is inspected the process exits with code 1:
no outcome list is ever collected, so the not-yet-started third test is not
recorded as skipped in any final tally, and the already-produced passing
result is discarded rather than kept. -/
theorem C3_fail_fast_counterexample :
    run_tests false fail_fast_stream = .error 1
    ∧ (∀ results : List OutcomeKind, run_tests false fail_fast_stream ≠ .ok results)
    ∧ main_exit_code false fail_fast_stream = 1 := by
  refine ⟨rfl, ?_, rfl⟩
  intro results h
  rw [show run_tests false fail_fast_stream = .error 1 from rfl] at h
  cases h

/-- C3 amended: with fail-fast enabled (the default), once any outcome in
the completion-order stream is failing, the process exits immediately with
code 1 when that outcome is inspected; no summary is produced (so nothing
is counted as skipped) and results produced before the failure are
discarded with the exiting process. -/
theorem C3_fail_fast_exits (pre post : List OutcomeKind) (o : OutcomeKind)
    (hpre : ∀ x ∈ pre, x.is_fail = false) (ho : o.is_fail = true) :
    run_tests false (pre ++ o :: post) = .error 1
    ∧ main_exit_code false (pre ++ o :: post) = 1 := by
  have h1 : run_tests false (pre ++ o :: post) = .error 1 :=
    run_tests_error_of_mem _ o (by simp) ho
  exact ⟨h1, by simp [main_exit_code, h1]⟩

/-- Witness for C3's amended claim on the concrete stream. -/
theorem C3_fail_fast_exits_witness :
    run_tests false fail_fast_stream = .error 1
    ∧ main_exit_code false fail_fast_stream = 1 :=
  C3_fail_fast_exits [OutcomeKind.pass 1] [OutcomeKind.pass 3]
    (OutcomeKind.fail assertionError 2)
    (by intro x hx; rw [List.mem_singleton] at hx; subst hx; rfl) rfl

/-- C4: the process exits with code 0 if and only if the run produced zero
failing outcomes and at least one passing outcome; in every other case
(zero tests included) the exit code is nonzero — this holds both with
fail-fast (default) and with `--no-fail-fast`. -/
theorem C4_exit_code_iff (noFailFast : Bool) (outcomes : List OutcomeKind) :
    main_exit_code noFailFast outcomes = 0 ↔
      ((∀ o ∈ outcomes, o.is_fail = false) ∧ ∃ t, OutcomeKind.pass t ∈ outcomes) := by
  constructor
  · intro h
    rcases run_tests_ok_or_error noFailFast outcomes with hr | hr
    · rw [main_exit_code, hr] at h
      simp only [summary_failed_count, summary_passed_count] at h
      by_cases hcond :
          (outcomes.countP OutcomeKind.is_fail == 0
            && decide (outcomes.countP OutcomeKind.is_pass > 0)) = true
      · rw [Bool.and_eq_true, beq_iff_eq, decide_eq_true_eq] at hcond
        constructor
        · intro o ho
          have := List.countP_eq_zero.mp hcond.1
          have h2 := this o ho
          simpa using h2
        · obtain ⟨o, hmem, hp⟩ := List.countP_pos_iff.mp hcond.2
          cases o with
          | pass t => exact ⟨t, hmem⟩
          | _ => simp [OutcomeKind.is_pass] at hp
      · simp only [hcond] at h
        simp at h
    · rw [main_exit_code, hr] at h
      cases h
  · rintro ⟨hnf, t, hmem⟩
    have hr : run_tests noFailFast outcomes = .ok outcomes := by
      cases noFailFast with
      | true => exact run_tests_no_fail_fast outcomes
      | false => exact run_tests_ok_of_no_fail outcomes hnf
    rw [main_exit_code, hr]
    have h1 : outcomes.countP OutcomeKind.is_fail = 0 :=
      List.countP_eq_zero.mpr (by intro a ha; simp [hnf a ha])
    have h2 : 0 < outcomes.countP OutcomeKind.is_pass :=
      List.countP_pos_iff.mpr ⟨_, hmem, rfl⟩
    simp [summary_failed_count, summary_passed_count, h1, h2]

/-- Witness for C4: a single passing test exits 0; an empty run and a run
with only an expected-failure outcome exit nonzero. -/
theorem C4_exit_code_iff_witness :
    main_exit_code true [OutcomeKind.pass 3] = 0
    ∧ main_exit_code true ([] : List OutcomeKind) ≠ 0
    ∧ main_exit_code true [OutcomeKind.skip "s"] ≠ 0 := by
  refine ⟨?_, ?_, ?_⟩
  · exact (C4_exit_code_iff true [OutcomeKind.pass 3]).mpr
      ⟨by intro o ho; rw [List.mem_singleton] at ho; subst ho; rfl,
       3, List.mem_singleton.mpr rfl⟩
  · intro h
    obtain ⟨-, t, hmem⟩ := (C4_exit_code_iff true []).mp h
    cases hmem
  · intro h
    obtain ⟨-, t, hmem⟩ := (C4_exit_code_iff true [OutcomeKind.skip "s"]).mp h
    rw [List.mem_singleton] at hmem
    cases hmem

/-- Pointwise union is right-commutative, so the merge fold is insensitive
to the order of its operands. -/
theorem lines_merge_right_comm (a b c : Lines) :
    Lines.merge (Lines.merge a b) c = Lines.merge (Lines.merge a c) b :=
  funext fun _file => Finset.union_right_comm _ _ _

/-- Folding the per-file merge over a permuted list of worker results gives
the same map. -/
theorem lines_foldl_merge_perm (init : Lines) (l1 l2 : List Lines) (h : l1.Perm l2) :
    l1.foldl Lines.merge init = l2.foldl Lines.merge init := by
  induction h generalizing init with
  | nil => rfl
  | cons x p ih => simp only [List.foldl_cons]; exact ih _
  | swap x y l => simp only [List.foldl_cons]; rw [lines_merge_right_comm]
  | trans p q ih1 ih2 => exact (ih1 init).trans (ih2 init)

/-- C8: merging coverage `Lines` maps is per-file set union keyed by file
path, hence commutative and idempotent — merging the same per-file line set
twice yields the same mapping as merging it once — and extending with the
worker results in any order yields the same final mapping. -/
theorem C8_lines_merge_union (a b init : Lines) (l1 l2 : List (Option Lines))
    (h : l1.Perm l2) :
    (∀ file, Lines.merge a b file = a file ∪ b file)
    ∧ Lines.merge a b = Lines.merge b a
    ∧ Lines.merge (Lines.merge a b) b = Lines.merge a b
    ∧ Lines.par_extend init l1 = Lines.par_extend init l2 := by
  refine ⟨fun file => rfl, ?_, ?_, ?_⟩
  · exact funext fun file => Finset.union_comm _ _
  · exact funext fun file => by
      show (a file ∪ b file) ∪ b file = a file ∪ b file
      rw [Finset.union_assoc, Finset.union_self]
  · exact lines_foldl_merge_perm init _ _ (h.filterMap id)

/-- Witness for C8 on concrete two-file coverage maps and a transposed
worker-result list. -/
theorem C8_lines_merge_union_witness :
    Lines.merge sample_lines_a sample_lines_b = Lines.merge sample_lines_b sample_lines_a
    ∧ Lines.merge (Lines.merge sample_lines_a sample_lines_b) sample_lines_b =
        Lines.merge sample_lines_a sample_lines_b
    ∧ Lines.par_extend sample_lines_a [some sample_lines_b, some sample_lines_a] =
        Lines.par_extend sample_lines_a [some sample_lines_a, some sample_lines_b] :=
  ⟨(C8_lines_merge_union sample_lines_a sample_lines_b sample_lines_a
      [some sample_lines_b, some sample_lines_a]
      [some sample_lines_a, some sample_lines_b]
      (List.Perm.swap (some sample_lines_a) (some sample_lines_b) [])).2.1,
   (C8_lines_merge_union sample_lines_a sample_lines_b sample_lines_a
      [some sample_lines_b, some sample_lines_a]
      [some sample_lines_a, some sample_lines_b]
      (List.Perm.swap (some sample_lines_a) (some sample_lines_b) [])).2.2.1,
   (C8_lines_merge_union sample_lines_a sample_lines_b sample_lines_a
      [some sample_lines_b, some sample_lines_a]
      [some sample_lines_a, some sample_lines_b]
      (List.Perm.swap (some sample_lines_a) (some sample_lines_b) [])).2.2.2⟩

/-- C9: every completed outcome other than `Pass` and `Skip` — `Fail`,
`Error`, `ModuleError`, `ExpectedFailure`, `TestNotFound` — is failing:
`is_fail` accepts exactly those, the summary's `failed` count counts
exactly those (so an `ExpectedFailure` or `TestNotFound` in the stream
forces a nonzero exit code under either fail-fast setting), and under
fail-fast a stream containing one triggers the early process exit. -/
theorem C9_failing_outcomes (e : Error) (t : Nat) (r : String) (nff : Bool)
    (outcomes : List OutcomeKind) (o : OutcomeKind)
    (ho : o.is_fail = true) (hmem : o ∈ outcomes) :
    OutcomeKind.is_fail (.fail e t) = true
    ∧ OutcomeKind.is_fail (.error e t) = true
    ∧ OutcomeKind.is_fail (.moduleError e) = true
    ∧ OutcomeKind.is_fail (.expectedFailure t) = true
    ∧ OutcomeKind.is_fail .testNotFound = true
    ∧ OutcomeKind.is_fail (.pass t) = false
    ∧ OutcomeKind.is_fail (.skip r) = false
    ∧ (TestSummary.from_par_iter outcomes).failed = outcomes.countP OutcomeKind.is_fail
    ∧ main_exit_code nff outcomes ≠ 0
    ∧ run_tests false outcomes = .error 1 := by
  refine ⟨rfl, rfl, rfl, rfl, rfl, rfl, rfl, summary_failed_count outcomes, ?_, ?_⟩
  · have hfailpos : 0 < outcomes.countP OutcomeKind.is_fail :=
      List.countP_pos_iff.mpr ⟨o, hmem, ho⟩
    cases nff with
    | false =>
      rw [main_exit_code, run_tests_error_of_mem outcomes o hmem ho]
      exact one_ne_zero
    | true =>
      rw [main_exit_code, run_tests_no_fail_fast outcomes]
      simp only [summary_failed_count]
      have : (outcomes.countP OutcomeKind.is_fail == 0) = false := by
        simp only [beq_eq_false_iff_ne, ne_eq]
        omega
      simp [this]
  · exact run_tests_error_of_mem outcomes o hmem ho

/-- Witness for C9 at a stream holding one expected-failure outcome. -/
theorem C9_failing_outcomes_witness :
    main_exit_code true [OutcomeKind.expectedFailure 2] ≠ 0
    ∧ run_tests false [OutcomeKind.expectedFailure 2] = .error 1 :=
  ⟨(C9_failing_outcomes assertionError 2 "" true [OutcomeKind.expectedFailure 2]
      (OutcomeKind.expectedFailure 2) rfl (List.mem_singleton.mpr rfl)).2.2.2.2.2.2.2.2.1,
   (C9_failing_outcomes assertionError 2 "" true [OutcomeKind.expectedFailure 2]
      (OutcomeKind.expectedFailure 2) rfl (List.mem_singleton.mpr rfl)).2.2.2.2.2.2.2.2.2⟩

/-- C10: evaluating a "skipIf" or "xfail" marker reads element 0 of the
mark's args tuple through the unchecked index; under the precondition that
the tuple holds at least one element the embedded read's failure branch is
unreachable (`isSome`), while a bare marker with an empty args tuple
violates the precondition: the read yields `none` and both mark scans land
in the undefined-behaviour branch. -/
theorem C10_unchecked_first_arg (args : List PyVal) (v : PyVal)
    (kw : Option (List (String × PyVal))) (rest : List Mark)
    (h : 1 ≤ args.length) :
    (PyTuple.get_item_unchecked args 0).isSome = true
    ∧ PyTuple.get_item_unchecked [] 0 = none
    ∧ (v.str = "skipIf" →
        skip_mark_loop ({ name := some v, args := some [], kwargs := kw } :: rest) =
          .error .uncheckedIndex)
    ∧ (v.str = "xfail" →
        xfail_mark_loop ({ name := some v, args := some [], kwargs := kw } :: rest) =
          .error .uncheckedIndex) := by
  refine ⟨?_, rfl, ?_, ?_⟩
  · rw [PyTuple.get_item_unchecked, List.getElem?_eq_getElem (by omega)]
    rfl
  · intro hv
    simp [skip_mark_loop, hv, PyTuple.get_item_unchecked]
  · intro hv
    simp [xfail_mark_loop, hv, PyTuple.get_item_unchecked]

/-- Witness for C10 at a one-element args tuple and a bare "skipIf" /
"xfail" mark. -/
theorem C10_unchecked_first_arg_witness :
    (PyTuple.get_item_unchecked [truthyVal] 0).isSome = true
    ∧ skip_mark_loop [bare_skipIf_mark] = .error .uncheckedIndex :=
  ⟨(C10_unchecked_first_arg [truthyVal]
      { truthy := true, str := "skipIf", callResult := .ok () } none []
      (by decide)).1,
   (C10_unchecked_first_arg [truthyVal]
      { truthy := true, str := "skipIf", callResult := .ok () } none []
      (by decide)).2.2.1 rfl⟩

end Xc
